import Mathlib

/-!
Verification of the signal-detection engine in `suggest.py`.

The Python source works on pandas DataFrames of float candles.  The shallow
embedding below translates it to Lean over `List Candle` with exact rational
arithmetic (`ℚ`) in place of IEEE floats; `round(x, n)` is modelled exactly as
round-half-even on rationals, and Python's `max(1e-9, x)` guard uses the exact
rational `1/10^9`.  Undefined float values (the RSI NaN case) are modelled with
`Option ℚ`.
-/

set_option maxHeartbeats 1000000

set_option maxRecDepth 100000

set_option allowUnsafeReducibility true

attribute [local semireducible] Rat.add Rat.mul Rat.sub Rat.inv Rat.div Rat.ofScientific

/-- One candle row of the kline DataFrame: columns
`timestamp, open, high, low, close, volume` (suggest.py line 57). -/
structure Candle where
  timestamp : ℤ
  «open» : ℚ
  high : ℚ
  low : ℚ
  close : ℚ
  volume : ℚ
deriving DecidableEq

instance : Inhabited Candle := ⟨⟨0, 0, 0, 0, 0, 0⟩⟩

instance : Std.Antisymm (fun x1 x2 : ℚ => x1 ≤ x2) where
  antisymm h1 h2 := le_antisymm h1 h2

/-- `df.at[idx, 'open']`. -/
def copen (df : List Candle) (i : ℕ) : ℚ := (df.getD i default).«open»

/-- `df.at[idx, 'close']`. -/
def cclose (df : List Candle) (i : ℕ) : ℚ := (df.getD i default).close

/-- `df.at[idx, 'high']`. -/
def chigh (df : List Candle) (i : ℕ) : ℚ := (df.getD i default).high

/-- `df.at[idx, 'low']`. -/
def clow (df : List Candle) (i : ℕ) : ℚ := (df.getD i default).low

/-- `df.at[idx, 'volume']`. -/
def cvol (df : List Candle) (i : ℕ) : ℚ := (df.getD i default).volume

/-- Python's list slice `l[-k:]` (suggest.py lines 123 and 125): the last `k`
elements; for `k = 0` the slice `[-0:]` is `[0:]`, the whole list. -/
def lastSlice {α : Type} (l : List α) (k : ℕ) : List α :=
  if k = 0 then l else l.drop (l.length - k)

/-- Round-half-even of a rational to an integer, the rounding mode of Python's
built-in `round`. -/
def roundHalfEven (q : ℚ) : ℤ :=
  if q - ⌊q⌋ < 1/2 then ⌊q⌋
  else if 1/2 < q - ⌊q⌋ then ⌊q⌋ + 1
  else if ⌊q⌋ % 2 = 0 then ⌊q⌋ else ⌊q⌋ + 1

/-- Python `round(q, n)` modelled on exact rationals. -/
def pyRound (q : ℚ) (n : ℕ) : ℚ := (roundHalfEven (q * 10 ^ n) : ℚ) / 10 ^ n

/-!  ## 4.1 Candle Series Builder (`fetch_klines`, suggest.py lines 44-66)

The contract starts at "raw payload in" (spec §4.1); the network read and JSON
envelope checks are the out-of-scope part.  With a row-list payload the built
DataFrame carries the default positional RangeIndex `0..n-1`, so the source's
reversal test `df.index[0] > df.index[-1]` (line 59) compares `0 > n - 1`. -/

/-- Core of `fetch_klines` from "raw payload in": empty payload yields no
series; otherwise the DataFrame is built and reversed only when
`df.index[0] > df.index[-1]`, where `df.index` is the positional RangeIndex
(not the timestamp column). -/
def fetch_klines_build (data : List Candle) : Option (List Candle) :=
  if data.isEmpty then none
  else if (0 : ℤ) > (data.length : ℤ) - 1 then some data.reverse
  else some data

/-- The series is strictly ascending in `timestamp`. -/
def tsAscending : List Candle → Bool
  | [] => true
  | [_] => true
  | a :: b :: t => decide (a.timestamp < b.timestamp) && tsAscending (b :: t)

/-!  ## 4.3 Pattern Detector (suggest.py lines 69-81 and 110-118) -/

/-- `is_bullish_engulfing` (suggest.py lines 69-73). -/
def is_bullish_engulfing (df : List Candle) (idx : ℕ) : Bool :=
  if idx < 1 then false
  else
    let o := copen df idx
    let c := cclose df idx
    let o1 := copen df (idx - 1)
    let c1 := cclose df (idx - 1)
    decide (c > o) && decide (c1 < o1) && decide (c > o1) && decide (o < c1)

/-- `is_hammer` (suggest.py lines 75-81). -/
def is_hammer (df : List Candle) (idx : ℕ) : Bool :=
  let o := copen df idx
  let c := cclose df idx
  let h := chigh df idx
  let l := clow df idx
  let body := |c - o|
  let total := h - l
  if total ≤ 0 then false
  else
    decide (body / total < 0.35) && decide ((min o c - l) / total < 0.35) &&
      decide ((h - max o c) / total < 0.4)

/-- The bearish-engulfing formula inlined in `find_reversal_candle_level`
(suggest.py line 114); it reads candle `idx - 1`, so it requires `idx ≥ 1`. -/
def is_bearish_engulfing (df : List Candle) (idx : ℕ) : Bool :=
  if idx < 1 then false
  else
    let o := copen df idx
    let c := cclose df idx
    let o1 := copen df (idx - 1)
    let c1 := cclose df (idx - 1)
    decide (c < o) && decide (c1 > o1) && decide (c < o1) && decide (o > c1)

/-- The shooting-star approximation inlined in `find_reversal_candle_level`
(suggest.py lines 116-118). -/
def is_shooting_star (df : List Candle) (idx : ℕ) : Bool :=
  let o := copen df idx
  let c := cclose df idx
  let body := |c - o|
  let total := chigh df idx - clow df idx
  decide (total > 0) && decide (body / total < 0.35) &&
    decide ((chigh df idx - max o c) / total > 0.6)

/-!  ## 4.2 Indicator Calculator (`calculate_indicators`, suggest.py 83-97) -/

/-- Tail of `ewm(adjust=False).mean()`: each output is
`(1 - α) * previous + α * current`. -/
def ewmAux (α : ℚ) : ℚ → List ℚ → List ℚ
  | _, [] => []
  | prev, x :: rest =>
    let y := (1 - α) * prev + α * x
    y :: ewmAux α y rest

/-- `Series.ewm(alpha=α, adjust=False).mean()`, modelled from the pandas
documented semantics (library code is not part of the repository):
`y[0] = x[0]`, `y[t] = (1 - α) * y[t-1] + α * x[t]`. -/
def ewmCore (α : ℚ) : List ℚ → List ℚ
  | [] => []
  | x :: rest => x :: ewmAux α x rest

/-- `Series.ewm(span=s, adjust=False).mean()` with the pandas span-to-alpha
translation `α = 2 / (span + 1)` (suggest.py lines 85-86). -/
def ewmMean (span : ℕ) (xs : List ℚ) : List ℚ := ewmCore (2 / ((span : ℚ) + 1)) xs

/-- Modelled from the spec: the EMA recurrence of §4.2,
`ema[0] = close[0]`, `ema[i] = α * close[i] + (1 - α) * ema[i-1]`. -/
def emaSpec (α : ℚ) (xs : List ℚ) : ℕ → ℚ
  | 0 => xs.getD 0 0
  | i + 1 => α * xs.getD (i + 1) 0 + (1 - α) * emaSpec α xs i

/-- Per-step gain `np.where(delta > 0, delta, 0)` (suggest.py line 89);
`delta[0]` is NaN from `diff()`, and `NaN > 0` is false, so entry 0 is 0. -/
def gainAt (closes : List ℚ) (i : ℕ) : ℚ :=
  if i = 0 then 0
  else if 0 < closes.getD i 0 - closes.getD (i - 1) 0 then
    closes.getD i 0 - closes.getD (i - 1) 0
  else 0

/-- Per-step loss `np.where(delta < 0, -delta, 0)` (suggest.py line 90). -/
def lossAt (closes : List ℚ) (i : ℕ) : ℚ :=
  if i = 0 then 0
  else if closes.getD i 0 - closes.getD (i - 1) 0 < 0 then
    -(closes.getD i 0 - closes.getD (i - 1) 0)
  else 0

/-- `rolling(window=w, min_periods=1).mean()` at index `i`: the mean of the
last `min (i+1) w` entries up to `i`. -/
def rollMean (xs : List ℚ) (w i : ℕ) : ℚ :=
  let win := (xs.take (i + 1)).drop (i + 1 - w)
  win.sum / win.length

/-- The gain series of `calculate_indicators`. -/
def gains (closes : List ℚ) : List ℚ := (List.range closes.length).map (gainAt closes)

/-- The loss series of `calculate_indicators`. -/
def losses (closes : List ℚ) : List ℚ := (List.range closes.length).map (lossAt closes)

/-- `avg_gain` (suggest.py line 91). -/
def avgGain (closes : List ℚ) (i : ℕ) : ℚ := rollMean (gains closes) 14 i

/-- `avg_loss` (suggest.py line 92). -/
def avgLoss (closes : List ℚ) (i : ℕ) : ℚ := rollMean (losses closes) 14 i

/-- `rsi` at index `i` (suggest.py lines 93-94): `avg_loss.replace(0, np.nan)`
makes `rs`, hence `rsi`, undefined (NaN, here `none`) when the average loss is
zero; otherwise `rsi = 100 - 100 / (1 + avg_gain / avg_loss)`. -/
def rsiAt (closes : List ℚ) (i : ℕ) : Option ℚ :=
  if avgLoss closes i = 0 then none
  else some (100 - 100 / (1 + avgGain closes i / avgLoss closes i))

/-- `vol_ma20` (suggest.py line 96). -/
def volMa20 (df : List Candle) (i : ℕ) : ℚ := rollMean (df.map (·.volume)) 20 i

/-!  ## 4.4 Reversal Level Resolver (`find_reversal_candle_level`, 99-125) -/

/-- The indices visited by the source loop
`for i in range(n-1, max(-1, n-lookback-1), -1)`: `n-1` down to
`max 0 (n - lookback)`. -/
def revIdxs (n lookback : ℕ) : List ℕ :=
  (List.range (min lookback n)).map (fun k => n - 1 - k)

/-- The body of the backward scan: return the `low` at the first bullish
pattern (bullish case) or the `high` at the first bearish pattern (bearish
case, guarded by `i >= 1` in the source). -/
def revScan (df : List Candle) (bullish : Bool) : List ℕ → Option ℚ
  | [] => none
  | i :: rest =>
    if bullish then
      if is_hammer df i || is_bullish_engulfing df i then some (clow df i)
      else revScan df bullish rest
    else
      if 1 ≤ i ∧ (is_bearish_engulfing df i || is_shooting_star df i) then some (chigh df i)
      else revScan df bullish rest

/-- `find_reversal_candle_level` (suggest.py lines 99-125).  The Python
function returns NaN on an empty series (min of an empty pandas slice); this
is modelled as `none`. -/
def find_reversal_candle_level (df : List Candle) (lookback : ℕ) (bullish : Bool) : Option ℚ :=
  match revScan df bullish (revIdxs df.length lookback) with
  | some lvl => some lvl
  | none =>
    if bullish then ((lastSlice df lookback).map (·.low)).min?
    else ((lastSlice df lookback).map (·.high)).max?

/-!  ## 4.5 Signal Decision Engine (`detect_signal_for_symbol`, 127-207) -/

/-- Output record of the engine (suggest.py lines 171-180 and 196-205). -/
structure Signal where
  symbol : String
  direction : String
  entry : ℚ
  stop_loss : ℚ
  take_profit : ℚ
  rr : ℚ
  volume_24h : Option ℚ
  reason : String
deriving DecidableEq

/-- `ema7` at row `i`. -/
def ema7At (df : List Candle) (i : ℕ) : ℚ := (ewmMean 7 (df.map (·.close))).getD i 0

/-- `ema30` at row `i`. -/
def ema30At (df : List Candle) (i : ℕ) : ℚ := (ewmMean 30 (df.map (·.close))).getD i 0

/-- `ema_cross_up` (suggest.py line 142), on rows `len-2` and `len-1`. -/
def emaCrossUp (df : List Candle) : Bool :=
  decide (ema7At df (df.length - 2) < ema30At df (df.length - 2)) &&
    decide (ema7At df (df.length - 1) > ema30At df (df.length - 1))

/-- `ema_cross_down` (suggest.py line 143). -/
def emaCrossDown (df : List Candle) : Bool :=
  decide (ema7At df (df.length - 2) > ema30At df (df.length - 2)) &&
    decide (ema7At df (df.length - 1) < ema30At df (df.length - 1))

/-- `rsi_ok_long` (suggest.py line 146).  In the source,
`latest['rsi'] is np.nan` is a Python object-identity test on a float64 value
and is always false, and when the RSI is NaN both float comparisons
`rsi > 20`, `rsi < 70` are false; so an undefined RSI fails the gate. -/
def rsiOkLong (df : List Candle) : Bool :=
  match rsiAt (df.map (·.close)) (df.length - 1) with
  | none => false
  | some r => decide (r > 20) && decide (r < 70)

/-- `rsi_ok_short` (suggest.py line 147), same NaN semantics. -/
def rsiOkShort (df : List Candle) : Bool :=
  match rsiAt (df.map (·.close)) (df.length - 1) with
  | none => false
  | some r => decide (r > 30) && decide (r < 80)

/-- `vol_spike` (suggest.py line 150). -/
def volSpike (df : List Candle) : Bool :=
  decide (cvol df (df.length - 1) > 1.5 * volMa20 df (df.length - 1))

/-- The Long trigger (suggest.py line 154). -/
def longCondition (df : List Candle) : Bool :=
  emaCrossUp df && rsiOkLong df &&
    (volSpike df || is_hammer df (df.length - 1) || is_bullish_engulfing df (df.length - 1))

/-- The Short trigger (suggest.py line 183). -/
def shortCondition (df : List Candle) : Bool :=
  emaCrossDown df && rsiOkShort df &&
    (volSpike df || (!is_hammer df (df.length - 1) && !is_bullish_engulfing df (df.length - 1)))

/-- `entry = float(latest['close'])` (suggest.py lines 155 and 184). -/
def entryPrice (df : List Candle) : ℚ := cclose df (df.length - 1)

/-- The Long stop after the override (suggest.py lines 157-160): the resolver
level, replaced by `entry * 0.995` when `sl_price >= entry`.  The resolver
returns a value on every non-empty series; `getD 0` is only a type-level
default. -/
def longStop (df : List Candle) : ℚ :=
  let entry := entryPrice df
  let sl0 := (find_reversal_candle_level df 30 true).getD 0
  if sl0 ≥ entry then entry * 0.995 else sl0

/-- The Short stop after the override (suggest.py lines 185-187). -/
def shortStop (df : List Candle) : ℚ :=
  let entry := entryPrice df
  let sl0 := (find_reversal_candle_level df 30 false).getD 0
  if sl0 ≤ entry then entry * 1.005 else sl0

/-- The Long rationale (suggest.py lines 165-170); line 169 re-tests the same
EMA comparison as `ema_cross_up`. -/
def longReason (df : List Candle) : String :=
  let parts :=
    (if volSpike df then ["volume spike"] else []) ++
    (if is_hammer df (df.length - 1) then ["hammer reversal"] else []) ++
    (if is_bullish_engulfing df (df.length - 1) then ["bullish engulfing"] else []) ++
    (if emaCrossUp df then ["EMA 7 crossed above EMA 30"] else [])
  if parts.isEmpty then "EMA crossover" else String.intercalate ", " parts

/-- The Short rationale (suggest.py lines 191-195); the comment
`# detect bearish engulfing` at line 193 has no code, and line 194 re-tests
the same EMA comparison as `ema_cross_down`. -/
def shortReason (df : List Candle) : String :=
  let parts :=
    (if volSpike df then ["volume spike"] else []) ++
    (if emaCrossDown df then ["EMA 7 crossed below EMA 30"] else [])
  if parts.isEmpty then "EMA crossover" else String.intercalate ", " parts

/-- The Long record (suggest.py lines 155-180); `MIN_RR = 2.2` and the final
risk/reward recomputation divides by `max(1e-9, entry - sl_price)`. -/
def longSignal (df : List Candle) (symbol : String) : Signal :=
  let entry := entryPrice df
  let sl := longStop df
  let tp := entry + (entry - sl) * 2.2
  let rrCalc := (tp - entry) / max (1 / 1000000000) (entry - sl)
  { symbol := symbol
    direction := "Long"
    entry := pyRound entry 6
    stop_loss := pyRound sl 6
    take_profit := pyRound tp 6
    rr := pyRound rrCalc 2
    volume_24h := none
    reason := longReason df }

/-- The Short record (suggest.py lines 184-205). -/
def shortSignal (df : List Candle) (symbol : String) : Signal :=
  let entry := entryPrice df
  let sl := shortStop df
  let tp := entry - (sl - entry) * 2.2
  let rrCalc := (entry - tp) / max (1 / 1000000000) (sl - entry)
  { symbol := symbol
    direction := "Short"
    entry := pyRound entry 6
    stop_loss := pyRound sl 6
    take_profit := pyRound tp 6
    rr := pyRound rrCalc 2
    volume_24h := none
    reason := shortReason df }

/-- `detect_signal_for_symbol` (suggest.py lines 127-207).
`calculate_indicators` does not change the row count, so the `MIN_KLINES`
guard is equivalent to a length test on the input series. -/
def detect_signal_for_symbol (df : List Candle) (symbol : String) : Option Signal :=
  if df.length < 50 then none
  else if longCondition df then some (longSignal df symbol)
  else if shortCondition df then some (shortSignal df symbol)
  else none

/-!  ## 4.6 Suggestion Scanner (`get_trade_suggestions`, suggest.py 209-248)

The ticker snapshot and the kline fetch are external collaborators (spec §6);
the scanner is parametrised by the candidate list and a fetch oracle.  The
politeness delay and the per-symbol try/except (unreachable in the pure
model) are not modelled.  Numeric-to-text rendering inside the message is
abstracted by `ratStr`. -/

/-- Candidate pair from the ticker snapshot (suggest.py lines 35-39). -/
structure Pair where
  symbol : String
  quoteVolume : ℚ
  lastPrice : ℚ

/-- Abstract decimal rendering of a rational for the display string. -/
def ratStr (q : ℚ) : String := toString q.num ++ "/" ++ toString q.den

/-- The markdown message template (suggest.py lines 229-238). -/
def formatMsg (sig : Signal) : String :=
  "📌 *" ++ sig.symbol ++ "*  \n" ++
  "Direction: *" ++ sig.direction ++ "*  \n" ++
  "Entry: `" ++ ratStr sig.entry ++ "`  \n" ++
  "Stop-Loss: `" ++ ratStr sig.stop_loss ++ "`  \n" ++
  "Take-Profit: `" ++ ratStr sig.take_profit ++ "`  \n" ++
  "RR: `" ++ ratStr sig.rr ++ "`  \n" ++
  "24h Volume: `$" ++ ratStr ((sig.volume_24h).getD 0) ++ "`  \n" ++
  "Reason: _" ++ sig.reason ++ "_"

/-- The scan loop of `get_trade_suggestions` (suggest.py lines 219-246):
skip a symbol when the fetch fails or the series is short; on a signal,
set `volume_24h`, append the formatted message, and stop once
`len(out_messages) >= limit`. -/
def scanLoop (fetch : String → Option (List Candle)) (limit : ℕ) :
    List Pair → List String → List String
  | [], acc => acc
  | p :: rest, acc =>
    match fetch p.symbol with
    | none => scanLoop fetch limit rest acc
    | some df =>
      if df.length < 50 then scanLoop fetch limit rest acc
      else
        match detect_signal_for_symbol df p.symbol with
        | none => scanLoop fetch limit rest acc
        | some sig0 =>
          let sig := { sig0 with volume_24h := some (pyRound p.quoteVolume 2) }
          let acc2 := acc ++ [formatMsg sig]
          if limit ≤ acc2.length then acc2 else scanLoop fetch limit rest acc2

/-- `get_trade_suggestions` (suggest.py lines 209-248). -/
def get_trade_suggestions (fetch : String → Option (List Candle)) (pairs : List Pair)
    (limit : ℕ) : List String :=
  if pairs.isEmpty then [] else scanLoop fetch limit pairs []

/-!  ## Concrete series used by witnesses and counterexamples

All candles are degenerate (`open = high = low = close`), so no candlestick
pattern holds anywhere and the reversal resolver always uses its swing
fallback. -/

/-- A degenerate candle whose four price fields are all `c`. -/
def flatCandle (t : ℤ) (c v : ℚ) : Candle := ⟨t, c, c, c, c, v⟩

/-- Build a series of degenerate candles from close and volume lists. -/
def seriesOf (cs vs : List ℚ) : List Candle :=
  (List.range cs.length).map (fun i => flatCandle (Int.ofNat i) (cs.getD i 0) (vs.getD i 0))

/-- Closes of the Long witness series: a slope-1 downtrend into index 35
followed by a rising wiggle whose last fourteen deltas alternate -2 and +4,
giving an EMA-7/30 cross-up at index 49 with RSI 200/3. -/
def wCloses : List ℚ :=
  [135, 134, 133, 132, 131, 130, 129, 128, 127, 126, 125, 124, 123, 122, 121,
   120, 119, 118, 117, 116, 115, 114, 113, 112, 111, 110, 109, 108, 107, 106,
   105, 104, 103, 102, 101, 100, 98, 102, 100, 104, 102, 106, 104, 108, 106,
   110, 108, 112, 110, 114]

/-- Volumes with a spike at the last candle. -/
def spikeVols : List ℚ := List.replicate 49 1 ++ [10]

/-- Long witness series: fires a Long with entry 114, stop 98. -/
def wSeries : List Candle := seriesOf wCloses spikeVols

/-- The Long record produced on `wSeries`. -/
def wSig : Signal :=
  { symbol := "W", direction := "Long", entry := 114, stop_loss := 98,
    take_profit := 746/5, rr := 11/5, volume_24h := none,
    reason := "volume spike, EMA 7 crossed above EMA 30" }

/-- The same shape scaled to price level `1 + (c - 100) / 10^8`: every price
and price difference is far below the 6-decimal rounding grain. -/
def tCloses : List ℚ := wCloses.map (fun c => 1 + (c - 100) / 100000000)

/-- Tiny-scale series for the C1 counterexample: fires a Long whose rounded
record collapses to `entry = stop_loss = take_profit = 1`. -/
def tSeries : List Candle := seriesOf tCloses spikeVols

/-- Mirror-image closes (`200 - wCloses`): EMA-7/30 cross-down at index 49
with RSI 100/3. -/
def sCloses : List ℚ := wCloses.map (fun c => 200 - c)

/-- Flat volumes: no volume spike. -/
def flatVols : List ℚ := List.replicate 50 1

/-- Short witness series: fires a Short with entry 86, stop 102. -/
def sSeries : List Candle := seriesOf sCloses flatVols

/-- Closes of the C2 failing input: a slope-8 downtrend into index 35 followed
by fourteen +7 steps, so the last fourteen deltas hold no loss (RSI undefined)
while EMA 7 crosses above EMA 30 at index 49. -/
def c2Closes : List ℚ :=
  [380, 372, 364, 356, 348, 340, 332, 324, 316, 308, 300, 292, 284, 276, 268,
   260, 252, 244, 236, 228, 220, 212, 204, 196, 188, 180, 172, 164, 156, 148,
   140, 132, 124, 116, 108, 100, 107, 114, 121, 128, 135, 142, 149, 156, 163,
   170, 177, 184, 191, 198]

/-- C2 failing input: every Long condition except the momentum gate holds. -/
def c2Series : List Candle := seriesOf c2Closes spikeVols

/-- A two-candle payload returned newest-first (timestamps 2 then 1). -/
def c3Payload : List Candle :=
  [⟨2, 5, 6, 4, 5, 1⟩, ⟨1, 3, 4, 2, 3, 1⟩]

/-- A 49-candle series for the insufficient-data witness. -/
def shortSeries : List Candle := seriesOf (List.replicate 49 5) (List.replicate 49 1)

/-- A candidate pair used by the scanner witnesses. -/
def pW : Pair := ⟨"W", 50000000, 100⟩

/-- The Long record fired on the tiny-scale series: all three price fields
round to the same value 1. -/
def tSig : Signal :=
  { symbol := "T", direction := "Long", entry := 1, stop_loss := 1,
    take_profit := 1, rr := 11/5, volume_24h := none,
    reason := "volume spike, EMA 7 crossed above EMA 30" }

/-- The Short record produced on `sSeries`. -/
def sSig : Signal :=
  { symbol := "S", direction := "Short", entry := 86, stop_loss := 102,
    take_profit := 254/5, rr := 11/5, volume_24h := none,
    reason := "EMA 7 crossed below EMA 30" }

/-!  ## Helper lemmas -/

/-- `roundHalfEven` is within one half of its argument (lower bound). -/
theorem roundHalfEven_ge (q : ℚ) : q - 1/2 ≤ (roundHalfEven q : ℚ) := by
  unfold roundHalfEven
  have h1 : (⌊q⌋ : ℚ) ≤ q := Int.floor_le q
  have h2 : q < ⌊q⌋ + 1 := Int.lt_floor_add_one q
  split
  · linarith
  · split
    · push_cast; linarith
    · split <;> push_cast <;> linarith

/-- `roundHalfEven` is within one half of its argument (upper bound). -/
theorem roundHalfEven_le (q : ℚ) : (roundHalfEven q : ℚ) ≤ q + 1/2 := by
  unfold roundHalfEven
  have h1 : (⌊q⌋ : ℚ) ≤ q := Int.floor_le q
  have h2 : q < ⌊q⌋ + 1 := Int.lt_floor_add_one q
  split
  · linarith
  · split
    · push_cast; linarith
    · rename_i hlt hgt
      have : q - ⌊q⌋ = 1/2 := le_antisymm (not_lt.mp hgt) (not_lt.mp hlt)
      split <;> push_cast <;> linarith

/-- Rounding to six decimals preserves strict order across a gap larger than
one grain `10⁻⁶`. -/
theorem pyRound6_lt {a b : ℚ} (h : a + 1/1000000 < b) : pyRound a 6 < pyRound b 6 := by
  unfold pyRound
  have ha := roundHalfEven_le (a * 10 ^ 6)
  have hb := roundHalfEven_ge (b * 10 ^ 6)
  have hpow : ((10 : ℚ) ^ 6) = 1000000 := by norm_num
  rw [div_lt_div_iff₀ (by norm_num) (by norm_num), hpow]
  rw [hpow] at ha hb
  linarith

/-- `roundHalfEven` fixes integers. -/
theorem roundHalfEven_intCast (k : ℤ) : roundHalfEven (k : ℚ) = k := by
  unfold roundHalfEven
  rw [Int.floor_intCast]
  norm_num

/-- Python `round(2.2, 2)` is exactly `2.2` in the rational model. -/
theorem pyRound_rr : pyRound (2.2 : ℚ) 2 = 2.2 := by
  unfold pyRound
  have h : (2.2 : ℚ) * 10 ^ 2 = ((220 : ℤ) : ℚ) := by norm_num
  rw [h, roundHalfEven_intCast]
  norm_num

/-!  ## Claim theorems -/

/-- Claim C5: for every candle series of length strictly less than 50, the
Signal Decision Engine returns the no-signal outcome, regardless of the
indicator, pattern, and volume values of the series. -/
theorem C5_insufficient_data (df : List Candle) (symbol : String)
    (h : df.length < 50) : detect_signal_for_symbol df symbol = none := by
  unfold detect_signal_for_symbol
  simp [h]

/-- Witness for C5 at a concrete 49-candle series. -/
theorem C5_witness :
    shortSeries.length < 50 ∧ detect_signal_for_symbol shortSeries "S" = none :=
  ⟨by decide, C5_insufficient_data shortSeries "S" (by decide)⟩

/-- Claim C9: the Bullish-Engulfing predicate holds at `i` exactly when
`i ≥ 1`, the current candle is bullish, the previous is bearish, the current
close exceeds the previous open, and the current open is below the previous
close; in particular it is false at index 0 and depends only on the open and
close of candles `i-1` and `i`. -/
theorem C9_bullish_engulfing_iff (df : List Candle) (i : ℕ) :
    is_bullish_engulfing df i = true ↔
      (1 ≤ i ∧ copen df i < cclose df i ∧ cclose df (i - 1) < copen df (i - 1) ∧
        copen df (i - 1) < cclose df i ∧ copen df i < cclose df (i - 1)) := by
  unfold is_bullish_engulfing
  split
  · rename_i hlt
    simp only [Bool.false_eq_true, false_iff]
    rintro ⟨h1, -⟩
    omega
  · rename_i hge
    simp only [Bool.and_eq_true, decide_eq_true_eq, gt_iff_lt]
    constructor
    · rintro ⟨⟨⟨a, b⟩, c⟩, d⟩
      exact ⟨by omega, a, b, c, d⟩
    · rintro ⟨-, a, b, c, d⟩
      exact ⟨⟨⟨a, b⟩, c⟩, d⟩

/-- Claim C3 (code bug): on a two-candle payload returned newest-first
(timestamps 2 then 1) the builder returns the payload unchanged, still
descending in timestamp — the reversal test compares positional indices and
never fires. -/
theorem C3_builder_keeps_descending_order :
    fetch_klines_build c3Payload = some c3Payload ∧
    tsAscending c3Payload = false ∧
    tsAscending c3Payload.reverse = true := by
  refine ⟨by decide, by decide, by decide⟩

/-- Claim C2 (code bug): on `c2Series` the latest RSI is undefined (zero
average loss), the EMA cross-up, length and volume-spike conditions all hold,
yet the engine emits no signal — the undefined RSI fails the momentum gate
instead of passing it. -/
theorem C2_undefined_rsi_blocks_signal :
    c2Series.length = 50 ∧
    rsiAt (c2Series.map (·.close)) (c2Series.length - 1) = none ∧
    emaCrossUp c2Series = true ∧
    volSpike c2Series = true ∧
    detect_signal_for_symbol c2Series "X" = none := by
  refine ⟨by decide, by decide, by decide, by decide, by decide⟩

/-- The backward scan finds nothing when no bullish pattern holds on the
visited indices. -/
theorem revScan_none_bull (df : List Candle) (idxs : List ℕ)
    (h : ∀ i ∈ idxs, ¬(is_hammer df i = true ∨ is_bullish_engulfing df i = true)) :
    revScan df true idxs = none := by
  induction idxs with
  | nil => simp [revScan]
  | cons i rest ih =>
    have hi := h i (by simp)
    push_neg at hi
    have h1 : is_hammer df i = false := by
      cases hh : is_hammer df i
      · rfl
      · exact absurd hh hi.1
    have h2 : is_bullish_engulfing df i = false := by
      cases hh : is_bullish_engulfing df i
      · rfl
      · exact absurd hh hi.2
    rw [revScan]
    simp only [h1, h2, Bool.or_self, if_pos rfl]
    exact ih (fun j hj => h j (by simp [hj]))

/-- The backward scan finds nothing when no bearish pattern holds on the
visited indices. -/
theorem revScan_none_bear (df : List Candle) (idxs : List ℕ)
    (h : ∀ i ∈ idxs, ¬(is_bearish_engulfing df i = true ∨ is_shooting_star df i = true)) :
    revScan df false idxs = none := by
  induction idxs with
  | nil => simp [revScan]
  | cons i rest ih =>
    have hi := h i (by simp)
    push_neg at hi
    have h1 : is_bearish_engulfing df i = false := by
      cases hh : is_bearish_engulfing df i
      · rfl
      · exact absurd hh hi.1
    have h2 : is_shooting_star df i = false := by
      cases hh : is_shooting_star df i
      · rfl
      · exact absurd hh hi.2
    rw [revScan]
    simp only [h1, h2, Bool.or_self, Bool.false_eq_true, and_false, if_false]
    exact ih (fun j hj => h j (by simp [hj]))

/-- On a non-empty series the last-`k` slice is non-empty. -/
theorem lastSlice_ne_nil {l : List Candle} (k : ℕ) (h : l ≠ []) :
    lastSlice l k ≠ [] := by
  unfold lastSlice
  split
  · exact h
  · have hp : 0 < l.length := List.length_pos.mpr h
    intro hc
    have := congrArg List.length hc
    rw [List.length_drop] at this
    simp at this
    omega

/-- A non-empty list of rationals has a `min?` value. -/
theorem min?_isSome_of_ne_nil {l : List ℚ} (h : l ≠ []) : l.min?.isSome = true := by
  cases l with
  | nil => simp at h
  | cons x t => simp [List.min?]

/-- A non-empty list of rationals has a `max?` value. -/
theorem max?_isSome_of_ne_nil {l : List ℚ} (h : l ≠ []) : l.max?.isSome = true := by
  cases l with
  | nil => simp at h
  | cons x t => simp [List.max?]

/-- Claim C4: on every non-empty series (with a positive lookback) the
Reversal Level Resolver returns a value; and when no qualifying pattern
(Hammer or Bullish-Engulfing for `bullish`, Bearish-Engulfing or
Shooting-Star otherwise) holds at any index of the lookback window, it
returns exactly the swing extreme: the minimum low (bullish) or the maximum
high (bearish) over that window. -/
theorem C4_resolver_total_and_fallback (df : List Candle) (lb : ℕ)
    (hne : df ≠ []) :
    ((find_reversal_candle_level df lb true).isSome = true ∧
     (find_reversal_candle_level df lb false).isSome = true) ∧
    ((∀ i ∈ revIdxs df.length lb,
        ¬(is_hammer df i = true ∨ is_bullish_engulfing df i = true)) →
      ∃ m, find_reversal_candle_level df lb true = some m ∧
        m ∈ (lastSlice df lb).map (·.low) ∧
        ∀ x ∈ (lastSlice df lb).map (·.low), m ≤ x) ∧
    ((∀ i ∈ revIdxs df.length lb,
        ¬(is_bearish_engulfing df i = true ∨ is_shooting_star df i = true)) →
      ∃ m, find_reversal_candle_level df lb false = some m ∧
        m ∈ (lastSlice df lb).map (·.high) ∧
        ∀ x ∈ (lastSlice df lb).map (·.high), x ≤ m) := by
  have hlow : (lastSlice df lb).map (·.low) ≠ [] := by
    simp [List.map_eq_nil_iff]
    exact lastSlice_ne_nil lb hne
  have hhigh : (lastSlice df lb).map (·.high) ≠ [] := by
    simp [List.map_eq_nil_iff]
    exact lastSlice_ne_nil lb hne
  refine ⟨⟨?_, ?_⟩, ?_, ?_⟩
  · unfold find_reversal_candle_level
    cases hscan : revScan df true (revIdxs df.length lb) with
    | some lvl => simp
    | none => simpa using min?_isSome_of_ne_nil hlow
  · unfold find_reversal_candle_level
    cases hscan : revScan df false (revIdxs df.length lb) with
    | some lvl => simp
    | none => simpa using max?_isSome_of_ne_nil hhigh
  · intro hnopat
    have hscan := revScan_none_bull df _ hnopat
    have hsome := min?_isSome_of_ne_nil hlow
    rcases Option.isSome_iff_exists.mp hsome with ⟨m, hm⟩
    refine ⟨m, ?_, ?_⟩
    · unfold find_reversal_candle_level
      rw [hscan]
      simpa using hm
    · exact (List.min?_eq_some_iff (fun a => le_refl a) (fun a b => min_choice a b)
        (fun _ _ _ => le_min_iff)).mp hm
  · intro hnopat
    have hscan := revScan_none_bear df _ hnopat
    have hsome := max?_isSome_of_ne_nil hhigh
    rcases Option.isSome_iff_exists.mp hsome with ⟨m, hm⟩
    refine ⟨m, ?_, ?_⟩
    · unfold find_reversal_candle_level
      rw [hscan]
      simpa using hm
    · exact (List.max?_eq_some_iff (fun a => le_refl a) (fun a b => max_choice a b)
        (fun _ _ _ => max_le_iff)).mp hm

/-- Witness for C4 at a concrete 49-candle patternless series: both resolver
directions return a value, and the bullish fallback is the window minimum. -/
theorem C4_witness :
    ((find_reversal_candle_level shortSeries 30 true).isSome = true ∧
     (find_reversal_candle_level shortSeries 30 false).isSome = true) ∧
    (∃ m, find_reversal_candle_level shortSeries 30 true = some m ∧
      m ∈ (lastSlice shortSeries 30).map (·.low) ∧
      ∀ x ∈ (lastSlice shortSeries 30).map (·.low), m ≤ x) :=
  ⟨(C4_resolver_total_and_fallback shortSeries 30 (by decide)).1,
   (C4_resolver_total_and_fallback shortSeries 30 (by decide)).2.1 (by decide)⟩

/-- First entry of the smoothing tail. -/
theorem ewmAux_getD_zero (α p x : ℚ) (t : List ℚ) :
    (ewmAux α p (x :: t)).getD 0 0 = α * x + (1 - α) * p := by
  simp [ewmAux]
  ring

/-- Recurrence between consecutive entries of the smoothing tail. -/
theorem ewmAux_getD_succ (α : ℚ) (rest : List ℚ) : ∀ (p : ℚ) (j : ℕ),
    j + 1 < rest.length →
    (ewmAux α p rest).getD (j + 1) 0 =
      α * rest.getD (j + 1) 0 + (1 - α) * (ewmAux α p rest).getD j 0 := by
  induction rest with
  | nil => intro p j h; simp at h
  | cons x t ih =>
    intro p j h
    cases t with
    | nil => simp at h
    | cons y t2 =>
      cases j with
      | zero =>
        show (ewmAux α ((1 - α) * p + α * x) (y :: t2)).getD 0 0 = _
        rw [ewmAux_getD_zero]
        simp [ewmAux]
      | succ m =>
        have hm : m + 1 < (y :: t2).length := by simpa using h
        show (ewmAux α ((1 - α) * p + α * x) (y :: t2)).getD (m + 1) 0 = _
        rw [ih ((1 - α) * p + α * x) m hm]
        simp [ewmAux]

/-- The pandas smoothing fold agrees with the spec recurrence at every
in-range index. -/
theorem ewmCore_getD (α : ℚ) (xs : List ℚ) : ∀ i : ℕ, i < xs.length →
    (ewmCore α xs).getD i 0 = emaSpec α xs i := by
  intro i
  induction i with
  | zero =>
    intro h
    cases xs with
    | nil => simp at h
    | cons x t => simp [ewmCore, emaSpec]
  | succ m ih =>
    intro h
    have hm : m < xs.length := by omega
    cases xs with
    | nil => simp at h
    | cons x t =>
      rw [emaSpec, ← ih hm]
      show (ewmAux α x t).getD m 0 = _
      cases m with
      | zero =>
        cases t with
        | nil => simp at h
        | cons y t2 =>
          rw [ewmAux_getD_zero]
          simp [ewmCore, ewmAux]
      | succ k =>
        have hk : k + 1 < t.length := by simpa using h
        rw [ewmAux_getD_succ α t x k hk]
        simp [ewmCore, ewmAux]

/-- Claim C7: for every candle series and each span in {7, 30}, the Indicator
Calculator's library EMA at any in-range index equals the spec recurrence
`ema[0] = close[0]`, `ema[i] = α·close[i] + (1-α)·ema[i-1]` with
`α = 2/(span+1)`. -/
theorem C7_ema_refinement (df : List Candle) (i : ℕ) (h : i < df.length) :
    ema7At df i = emaSpec (2 / (7 + 1)) (df.map (·.close)) i ∧
    ema30At df i = emaSpec (2 / (30 + 1)) (df.map (·.close)) i := by
  have hlen : i < (df.map (·.close)).length := by simpa using h
  constructor
  · unfold ema7At ewmMean
    rw [ewmCore_getD _ _ i hlen]
    norm_num
  · unfold ema30At ewmMean
    rw [ewmCore_getD _ _ i hlen]
    norm_num

/-- Witness for C7 at the concrete Long witness series, latest index. -/
theorem C7_witness :
    ema7At wSeries 49 = emaSpec (2 / (7 + 1)) (wSeries.map (·.close)) 49 ∧
    ema30At wSeries 49 = emaSpec (2 / (30 + 1)) (wSeries.map (·.close)) 49 :=
  C7_ema_refinement wSeries 49 (by decide)

/-- Per-step gains are non-negative. -/
theorem gainAt_nonneg (closes : List ℚ) (i : ℕ) : 0 ≤ gainAt closes i := by
  unfold gainAt
  split_ifs with h1 h2
  · exact le_refl 0
  · exact le_of_lt h2
  · exact le_refl 0


/-- Per-step losses are non-negative. -/
theorem lossAt_nonneg (closes : List ℚ) (i : ℕ) : 0 ≤ lossAt closes i := by
  unfold lossAt
  split_ifs with h1 h2
  · exact le_refl 0
  · linarith
  · exact le_refl 0


/-- A rolling mean of non-negative values is non-negative. -/
theorem rollMean_nonneg (xs : List ℚ) (w i : ℕ) (h : ∀ x ∈ xs, 0 ≤ x) :
    0 ≤ rollMean xs w i := by
  unfold rollMean
  apply div_nonneg
  · apply List.sum_nonneg
    intro x hx
    exact h x (List.mem_of_mem_take (List.mem_of_mem_drop hx))
  · exact_mod_cast Nat.zero_le _

/-- The rolling average gain is non-negative. -/
theorem avgGain_nonneg (closes : List ℚ) (i : ℕ) : 0 ≤ avgGain closes i := by
  apply rollMean_nonneg
  intro x hx
  unfold gains at hx
  rcases List.mem_map.mp hx with ⟨j, -, rfl⟩
  exact gainAt_nonneg closes j

/-- The rolling average loss is non-negative. -/
theorem avgLoss_nonneg (closes : List ℚ) (i : ℕ) : 0 ≤ avgLoss closes i := by
  apply rollMean_nonneg
  intro x hx
  unfold losses at hx
  rcases List.mem_map.mp hx with ⟨j, -, rfl⟩
  exact lossAt_nonneg closes j

/-- Claim C8: whenever the Indicator Calculator's RSI is defined (nonzero
14-window average loss), its value lies between 0 and 100. -/
theorem C8_rsi_bounds (closes : List ℚ) (i : ℕ) (r : ℚ)
    (h : rsiAt closes i = some r) : 0 ≤ r ∧ r ≤ 100 := by
  unfold rsiAt at h
  split_ifs at h with hal
  have hr : r = 100 - 100 / (1 + avgGain closes i / avgLoss closes i) := by
    exact (Option.some.injEq _ _).mp h |>.symm
  have hal0 : 0 < avgLoss closes i := lt_of_le_of_ne (avgLoss_nonneg closes i) (Ne.symm hal)
  have hrs : 0 ≤ avgGain closes i / avgLoss closes i :=
    div_nonneg (avgGain_nonneg closes i) (le_of_lt hal0)
  have hden : (0:ℚ) < 1 + avgGain closes i / avgLoss closes i := by linarith
  have hspos : 0 < 100 / (1 + avgGain closes i / avgLoss closes i) := by positivity
  have hsle : 100 / (1 + avgGain closes i / avgLoss closes i) ≤ 100 :=
    div_le_self (by norm_num) (by linarith)
  constructor
  · rw [hr]; linarith
  · rw [hr]; linarith

/-- Witness for C8: on the Long witness series the latest RSI is defined and
equal to 200/3, which the theorem bounds inside [0, 100]. -/
theorem C8_witness :
    rsiAt (wSeries.map (·.close)) 49 = some (200/3) ∧
    0 ≤ (200/3 : ℚ) ∧ (200/3 : ℚ) ≤ 100 :=
  ⟨by decide, C8_rsi_bounds (wSeries.map (·.close)) 49 (200/3) (by decide)⟩

/-- Claim C10: every fired Short signal's rationale is built only from
"volume spike" and the EMA-cross-down text: it always contains
"EMA 7 crossed below EMA 30" (so the "EMA crossover" default is unreachable)
and never mentions a bearish candlestick pattern. -/
theorem C10_short_reason (df : List Candle) (sym : String) (sig : Signal)
    (h : detect_signal_for_symbol df sym = some sig)
    (hdir : sig.direction = "Short") :
    sig.reason = "volume spike, EMA 7 crossed below EMA 30" ∨
    sig.reason = "EMA 7 crossed below EMA 30" := by
  unfold detect_signal_for_symbol at h
  split_ifs at h with hlen hlong hshort
  · have hsig : longSignal df sym = sig := (Option.some.injEq _ _).mp h
    rw [← hsig] at hdir
    simp [longSignal] at hdir
  · have hsig : shortSignal df sym = sig := (Option.some.injEq _ _).mp h
    subst hsig
    have hcd : emaCrossDown df = true := by
      unfold shortCondition at hshort
      exact (Bool.and_eq_true _ _ |>.mp ((Bool.and_eq_true _ _ |>.mp hshort).1)).1
    show (shortSignal df sym).reason = _ ∨ (shortSignal df sym).reason = _
    simp only [shortSignal, shortReason, hcd, if_true]
    cases hv : volSpike df
    · right
      simp only [hv, Bool.false_eq_true, if_false, List.nil_append]
      decide
    · left
      simp only [hv, if_true, List.cons_append, List.nil_append]
      decide

/-- Witness for C10: the concrete Short series fires with the pattern-free
rationale. -/
theorem C10_witness :
    detect_signal_for_symbol sSeries "S" = some sSig ∧
    (sSig.reason = "volume spike, EMA 7 crossed below EMA 30" ∨
     sSig.reason = "EMA 7 crossed below EMA 30") :=
  ⟨by decide, C10_short_reason sSeries "S" sSig (by decide) (by decide)⟩

/-- Claim C1 (amended): for every fired Long signal with positive entry whose
risk distance `entry - stop` exceeds the 10⁻⁶ rounding grain, the returned
record satisfies `take_profit > entry > stop_loss` and reports risk/reward
exactly 2.2; mirror statement for Short.  (As stated over all positive
entries the claim fails: six-decimal rounding of the record fields can
collapse the strict ordering, see the counterexample.) -/
theorem C1_risk_reward (df : List Candle) (sym : String) (sig : Signal)
    (h : detect_signal_for_symbol df sym = some sig) :
    (sig.direction = "Long" → 0 < entryPrice df →
      1/1000000 < entryPrice df - longStop df →
      sig.stop_loss < sig.entry ∧ sig.entry < sig.take_profit ∧ sig.rr = 2.2) ∧
    (sig.direction = "Short" → 0 < entryPrice df →
      1/1000000 < shortStop df - entryPrice df →
      sig.take_profit < sig.entry ∧ sig.entry < sig.stop_loss ∧ sig.rr = 2.2) := by
  unfold detect_signal_for_symbol at h
  split_ifs at h with hlen hlong hshort
  · -- Long branch
    have hsig : longSignal df sym = sig := (Option.some.injEq _ _).mp h
    subst hsig
    constructor
    · intro _ hpos hgap
      simp only [longSignal]
      have hmax : max (1/1000000000 : ℚ) (entryPrice df - longStop df) =
          entryPrice df - longStop df := max_eq_right (by linarith)
      have hne : entryPrice df - longStop df ≠ 0 := by
        intro hc
        rw [hc] at hgap
        norm_num at hgap
      refine ⟨pyRound6_lt (by linarith), pyRound6_lt (by nlinarith), ?_⟩
      rw [hmax]
      have he : (entryPrice df + (entryPrice df - longStop df) * 2.2 - entryPrice df) /
          (entryPrice df - longStop df) = 2.2 := by
        field_simp
      rw [he]
      exact pyRound_rr
    · intro hdir
      simp [longSignal] at hdir
  · -- Short branch
    have hsig : shortSignal df sym = sig := (Option.some.injEq _ _).mp h
    subst hsig
    constructor
    · intro hdir
      simp [shortSignal] at hdir
    · intro _ hpos hgap
      simp only [shortSignal]
      have hmax : max (1/1000000000 : ℚ) (shortStop df - entryPrice df) =
          shortStop df - entryPrice df := max_eq_right (by linarith)
      have hne : shortStop df - entryPrice df ≠ 0 := by
        intro hc
        rw [hc] at hgap
        norm_num at hgap
      refine ⟨pyRound6_lt (by nlinarith), pyRound6_lt (by linarith), ?_⟩
      rw [hmax]
      have he : (entryPrice df - (entryPrice df - (shortStop df - entryPrice df) * 2.2)) /
          (shortStop df - entryPrice df) = 2.2 := by
        field_simp
      rw [he]
      exact pyRound_rr

/-- Witness for C1 at the concrete Long witness series: stop 98 < entry 114 <
take-profit 149.2 with reported risk/reward 2.2. -/
theorem C1_witness :
    detect_signal_for_symbol wSeries "W" = some wSig ∧
    (wSig.stop_loss < wSig.entry ∧ wSig.entry < wSig.take_profit ∧ wSig.rr = 2.2) :=
  ⟨by decide,
   (C1_risk_reward wSeries "W" wSig (by decide)).1 (by decide) (by decide) (by decide)⟩

/-- Counterexample to C1 as stated: `tSeries` fires a Long whose latest close
(and recorded entry) is positive, yet the returned record violates
`take_profit > entry > stop_loss` — all its price fields are equal after
six-decimal rounding. -/
theorem C1_counterexample :
    detect_signal_for_symbol tSeries "T" = some tSig ∧
    tSig.direction = "Long" ∧ 0 < entryPrice tSeries ∧ 0 < tSig.entry ∧
    ¬(tSig.take_profit > tSig.entry ∧ tSig.entry > tSig.stop_loss) := by
  refine ⟨by decide, by decide, by decide, by decide, by decide⟩

/-- Scan-loop invariant: starting strictly below the cap, the loop never
returns more than `limit` messages. -/
theorem scanLoop_length_le (fetch : String → Option (List Candle)) (limit : ℕ)
    (ps : List Pair) : ∀ acc : List String, acc.length < limit →
    (scanLoop fetch limit ps acc).length ≤ limit := by
  induction ps with
  | nil =>
    intro acc h
    rw [scanLoop]
    omega
  | cons p rest ih =>
    intro acc h
    rw [scanLoop]
    cases hf : fetch p.symbol with
    | none => exact ih acc h
    | some df =>
      by_cases hlen : df.length < 50
      · simp only [hlen, if_true]
        exact ih acc h
      · simp only [hlen, if_false]
        cases hd : detect_signal_for_symbol df p.symbol with
        | none => exact ih acc h
        | some sig0 =>
          simp only []
          by_cases hstop : limit ≤ (acc ++ [formatMsg
              { sig0 with volume_24h := some (pyRound p.quoteVolume 2) }]).length
          · simp only [hstop, if_true]
            simp at hstop ⊢
            omega
          · simp only [hstop, if_false]
            apply ih
            simp at hstop ⊢
            omega

/-- Claim C6 (amended): for every candidate list and every result cap of at
least one, the Suggestion Scanner returns at most cap-many formatted strings,
and on an empty candidate list it returns the empty list.  (At cap 0 the
claim as stated fails: the loop checks the cap only after appending, see the
counterexample.) -/
theorem C6_scanner_cap (fetch : String → Option (List Candle)) (pairs : List Pair)
    (limit : ℕ) :
    (1 ≤ limit → (get_trade_suggestions fetch pairs limit).length ≤ limit) ∧
    get_trade_suggestions fetch [] limit = [] := by
  constructor
  · intro hl
    unfold get_trade_suggestions
    split_ifs with hp
    · simp
    · exact scanLoop_length_le fetch limit pairs [] (by simpa using hl)
  · rfl

/-- Witness for C6 at a concrete one-pair scan with cap 3. -/
theorem C6_witness :
    (get_trade_suggestions (fun _ => some wSeries) [pW] 3).length ≤ 3 ∧
    get_trade_suggestions (fun _ => some wSeries) [] 3 = [] :=
  ⟨(C6_scanner_cap (fun _ => some wSeries) [pW] 3).1 (by decide),
   (C6_scanner_cap (fun _ => some wSeries) [] 3).2⟩

/-- Counterexample to C6 as stated: with result cap 0 and one signal-bearing
candidate the scanner returns one message, exceeding the cap. -/
theorem C6_counterexample :
    (get_trade_suggestions (fun _ => some wSeries) [pW] 0).length = 1 := by
  decide
